import Mathlib

/-!
Verification of the equity / option pricing model in `src/classes.py`
(`Share`, `ShareOption` and the Black-Scholes valuation).

Real-valued arithmetic of the Python source (IEEE doubles) is embedded as
exact real arithmetic over `ℝ`.  The standard normal CDF `Φ` used by the
source through `scipy.stats.norm.cdf` is an external numeric dependency and
is embedded as the mathematical standard normal CDF.  Calendar dates parsed
by `datetime.strptime(…, "%Y-%m-%d")` are embedded as a record of
year/month/day validated against the proleptic Gregorian calendar.
-/

open MeasureTheory Set

/-! ## Calendar dates

Modelled from the spec: the expiry string "must conform to `YYYY-MM-DD`; any
other format is a construction-time failure" — `datetime.strptime` /
`datetime.strftime` are standard-library collaborators, not code of this
repository, so they are modelled from that contract: four digits, a dash,
two digits, a dash, two digits, validated as a real calendar date (year
1–9999, leap years as in the Gregorian calendar used by `datetime`). -/

structure Date where
  year : ℕ
  month : ℕ
  day : ℕ
deriving DecidableEq

def isLeapYear (y : ℕ) : Bool :=
  y % 4 == 0 && (y % 100 != 0 || y % 400 == 0)

def daysInMonth (y m : ℕ) : ℕ :=
  if m = 2 then (if isLeapYear y then 29 else 28)
  else if m = 4 ∨ m = 6 ∨ m = 9 ∨ m = 11 then 30
  else 31

def validDate (y m d : ℕ) : Prop :=
  1 ≤ y ∧ y ≤ 9999 ∧ 1 ≤ m ∧ m ≤ 12 ∧ 1 ≤ d ∧ d ≤ daysInMonth y m

instance (y m d : ℕ) : Decidable (validDate y m d) := by
  unfold validDate; infer_instance

def isDigitChar (c : Char) : Bool := 48 ≤ c.toNat && c.toNat ≤ 57

def digitVal (c : Char) : ℕ := c.toNat - 48

def digitChar (n : ℕ) : Char := Char.ofNat (48 + n)

/-- Modelled from the spec: `datetime.strptime(expiry_date, "%Y-%m-%d")`
(src/classes.py line 31) as a `YYYY-MM-DD` parse that fails (returns `none`,
the model of the `ValueError` / `DateParseError`) on any string that is not
a valid zero-padded calendar date. -/
def parseExpiryDate (s : String) : Option Date :=
  match s.data with
  | [y1, y2, y3, y4, c1, m1, m2, c2, e1, e2] =>
    if isDigitChar y1 && isDigitChar y2 && isDigitChar y3 && isDigitChar y4 &&
       (c1 == '-') && isDigitChar m1 && isDigitChar m2 &&
       (c2 == '-') && isDigitChar e1 && isDigitChar e2 then
      let y := ((digitVal y1 * 10 + digitVal y2) * 10 + digitVal y3) * 10 + digitVal y4
      let m := digitVal m1 * 10 + digitVal m2
      let d := digitVal e1 * 10 + digitVal e2
      if validDate y m d then some ⟨y, m, d⟩ else none
    else none
  | _ => none

/-- Modelled from the spec: `expiry_date.strftime("%Y-%m-%d")`
(src/classes.py line 71), zero-padded rendering of a date. -/
def formatDate (dt : Date) : String :=
  String.mk [digitChar (dt.year / 1000 % 10), digitChar (dt.year / 100 % 10),
             digitChar (dt.year / 10 % 10), digitChar (dt.year % 10), '-',
             digitChar (dt.month / 10), digitChar (dt.month % 10), '-',
             digitChar (dt.day / 10), digitChar (dt.day % 10)]

/-! ## The instrument model (`Share`, src/classes.py lines 5-26) -/

structure Share where
  ticker : String
  share_price : ℝ
  volatility : ℝ
  market_cap : ℝ
  dividend_yield : ℝ
  sector : String

/-- `Share.calculate_annualized_volatility` (src/classes.py lines 19-26):
`self.volatility * (trading_days ** 0.5)`.  The Python default argument is
`trading_days = 252`; the embedding passes the parameter explicitly. -/
noncomputable def Share.calculate_annualized_volatility (s : Share) (trading_days : ℕ) : ℝ :=
  s.volatility * (trading_days : ℝ) ^ (0.5 : ℝ)

/-! ## The option model (`ShareOption`, src/classes.py lines 28-71) -/

structure ShareOption extends Share where
  expiry_date : Date

/-- Failure of `ShareOption.__init__` when `datetime.strptime` rejects the
expiry string (spec §7: `DateParseError`). -/
inductive DateParseError where
  | invalidDate
deriving DecidableEq

/-- `ShareOption.__init__` (src/classes.py lines 29-31): stores the six
instrument attributes and the parse of the expiry string, failing when the
string is not a valid `YYYY-MM-DD` date. -/
def mkShareOption (ticker : String) (share_price volatility market_cap dividend_yield : ℝ)
    (sector : String) (expiry_date : String) : Except DateParseError ShareOption :=
  match parseExpiryDate expiry_date with
  | some dt => Except.ok ⟨⟨ticker, share_price, volatility, market_cap, dividend_yield, sector⟩, dt⟩
  | none => Except.error DateParseError.invalidDate

/-- `ShareOption.calculate_risk_free_rate` (src/classes.py lines 33-39):
the placeholder yield-curve result, a fixed 3% rate. -/
def ShareOption.calculate_risk_free_rate (_o : ShareOption) : ℝ := 0.03

/-- Failure of `calculate_option_value` on an unrecognised option type
(the `ValueError` raised at src/classes.py line 66; spec §7:
`InvalidOptionKind`). -/
inductive ValueError where
  | invalidOptionType
deriving DecidableEq

/-- The standard normal density.  Modelled from the spec: `Φ` "is the
standard normal cumulative distribution function, supplied by a
numeric/statistics library dependency" (`scipy.stats.norm.cdf`), embedded
as the mathematical standard normal distribution. -/
noncomputable def normPdf (x : ℝ) : ℝ := Real.exp (-x ^ 2 / 2) / Real.sqrt (2 * Real.pi)

/-- The standard normal CDF `Φ` (see `normPdf`). -/
noncomputable def normCdf (x : ℝ) : ℝ := ∫ t in Set.Iic x, normPdf t

/-- `ShareOption.calculate_option_value` (src/classes.py lines 41-68),
the Black-Scholes valuation.  The source computes
`time_to_expiry = (self.expiry_date - datetime.now()).days / 365.0`; the
integer day count `(expiry_date - now).days` — the only wall-clock-dependent
quantity — is taken as the explicit parameter `days_to_expiry`.  The Python
default argument is `option_type = "call"`; the embedding passes the
parameter explicitly. -/
noncomputable def ShareOption.calculate_option_value (o : ShareOption) (days_to_expiry : ℤ)
    (strike_price : ℝ) (option_type : String) : Except ValueError ℝ :=
  let time_to_expiry : ℝ := (days_to_expiry : ℝ) / 365
  let risk_free_rate : ℝ := o.calculate_risk_free_rate
  let d1 : ℝ := (Real.log (o.share_price / strike_price)
      + (risk_free_rate + 0.5 * o.volatility ^ 2) * time_to_expiry)
    / (o.volatility * Real.sqrt time_to_expiry)
  let d2 : ℝ := d1 - o.volatility * Real.sqrt time_to_expiry
  if option_type = "call" then
    Except.ok (o.share_price * normCdf d1
      - strike_price * Real.exp (-risk_free_rate * time_to_expiry) * normCdf d2)
  else if option_type = "put" then
    Except.ok (strike_price * Real.exp (-risk_free_rate * time_to_expiry) * normCdf (-d2)
      - o.share_price * normCdf (-d1))
  else
    Except.error ValueError.invalidOptionType

/-- The expiry fragment `", expiry_date=" + self.expiry_date.strftime("%Y-%m-%d")`
appended by `ShareOption.__repr__` (src/classes.py lines 70-71).  The numeric
`Share` fields of the representation involve float printing and are not
modelled. -/
def ShareOption.repr_expiry (o : ShareOption) : String :=
  ", expiry_date=" ++ formatDate o.expiry_date

/-! ### Closed forms of the two valuation branches.

These abbreviations name the exact expressions computed by
`calculate_option_value`; the bridge lemmas below are definitional. -/

noncomputable def bsD1 (S K r σ T : ℝ) : ℝ :=
  (Real.log (S / K) + (r + 0.5 * σ ^ 2) * T) / (σ * Real.sqrt T)

noncomputable def bsD2 (S K r σ T : ℝ) : ℝ := bsD1 S K r σ T - σ * Real.sqrt T

noncomputable def bsCall (S K r σ T : ℝ) : ℝ :=
  S * normCdf (bsD1 S K r σ T) - K * Real.exp (-r * T) * normCdf (bsD2 S K r σ T)

noncomputable def bsPut (S K r σ T : ℝ) : ℝ :=
  K * Real.exp (-r * T) * normCdf (-bsD2 S K r σ T) - S * normCdf (-bsD1 S K r σ T)

/-- A sample instrument used to instantiate the universally quantified
claims on concrete inputs (S = 150, σ = 0.25, expiry 2025-06-30). -/
def sampleOption : ShareOption :=
  ⟨⟨"ACME", 150, 0.25, 1000000, 0.01, "Tech"⟩, ⟨2025, 6, 30⟩⟩

/-! ## Helper lemmas: date parsing and formatting -/

theorem String.mk_data (s : String) : String.mk s.data = s := rfl

theorem digitChar_digitVal {c : Char} (h : isDigitChar c = true) :
    digitChar (digitVal c) = c := by
  simp only [isDigitChar, Bool.and_eq_true, decide_eq_true_eq] at h
  obtain ⟨h1, h2⟩ := h
  unfold digitChar digitVal
  have heq : 48 + (c.toNat - 48) = c.toNat := by omega
  rw [heq]
  exact Char.ofNat_toNat c

theorem isDigitChar_bounds {c : Char} (h : isDigitChar c = true) :
    48 ≤ c.toNat ∧ c.toNat ≤ 57 := by
  simpa only [isDigitChar, Bool.and_eq_true, decide_eq_true_eq] using h

/-- Formatting a successfully parsed expiry string reproduces the string. -/
theorem formatDate_parseExpiryDate (s : String) (dt : Date)
    (h : parseExpiryDate s = some dt) : formatDate dt = s := by
  unfold parseExpiryDate at h
  split at h
  case h_2 => exact absurd h (by simp)
  case h_1 y1 y2 y3 y4 c1 m1 m2 c2 e1 e2 heq =>
    split at h
    case isFalse => exact absurd h (by simp)
    case isTrue hcond =>
      simp only [] at h
      split at h
      case isFalse => exact absurd h (by simp)
      case isTrue hvalid =>
        injection h with h
        simp only [Bool.and_eq_true, beq_iff_eq] at hcond
        obtain ⟨⟨⟨⟨⟨⟨⟨⟨⟨hy1, hy2⟩, hy3⟩, hy4⟩, hc1⟩, hm1⟩, hm2⟩, hc2⟩, he1⟩, he2⟩ := hcond
        obtain ⟨hy1a, hy1b⟩ := isDigitChar_bounds hy1
        obtain ⟨hy2a, hy2b⟩ := isDigitChar_bounds hy2
        obtain ⟨hy3a, hy3b⟩ := isDigitChar_bounds hy3
        obtain ⟨hy4a, hy4b⟩ := isDigitChar_bounds hy4
        obtain ⟨hm1a, hm1b⟩ := isDigitChar_bounds hm1
        obtain ⟨hm2a, hm2b⟩ := isDigitChar_bounds hm2
        obtain ⟨he1a, he1b⟩ := isDigitChar_bounds he1
        obtain ⟨he2a, he2b⟩ := isDigitChar_bounds he2
        subst h
        have hs : s = String.mk [y1, y2, y3, y4, c1, m1, m2, c2, e1, e2] := by
          rw [← String.mk_data s, heq]
        rw [hs, formatDate]
        unfold digitVal
        congr 1
        subst hc1; subst hc2
        simp only [List.cons.injEq, and_true]
        refine ⟨?_, ?_, ?_, ?_, trivial, ?_, ?_, trivial, ?_, ?_⟩
        · rw [show ((((y1.toNat - 48) * 10 + (y2.toNat - 48)) * 10 + (y3.toNat - 48)) * 10
              + (y4.toNat - 48)) / 1000 % 10 = digitVal y1 from by unfold digitVal; omega]
          exact digitChar_digitVal hy1
        · rw [show ((((y1.toNat - 48) * 10 + (y2.toNat - 48)) * 10 + (y3.toNat - 48)) * 10
              + (y4.toNat - 48)) / 100 % 10 = digitVal y2 from by unfold digitVal; omega]
          exact digitChar_digitVal hy2
        · rw [show ((((y1.toNat - 48) * 10 + (y2.toNat - 48)) * 10 + (y3.toNat - 48)) * 10
              + (y4.toNat - 48)) / 10 % 10 = digitVal y3 from by unfold digitVal; omega]
          exact digitChar_digitVal hy3
        · rw [show ((((y1.toNat - 48) * 10 + (y2.toNat - 48)) * 10 + (y3.toNat - 48)) * 10
              + (y4.toNat - 48)) % 10 = digitVal y4 from by unfold digitVal; omega]
          exact digitChar_digitVal hy4
        · rw [show ((m1.toNat - 48) * 10 + (m2.toNat - 48)) / 10 = digitVal m1 from by
              unfold digitVal; omega]
          exact digitChar_digitVal hm1
        · rw [show ((m1.toNat - 48) * 10 + (m2.toNat - 48)) % 10 = digitVal m2 from by
              unfold digitVal; omega]
          exact digitChar_digitVal hm2
        · rw [show ((e1.toNat - 48) * 10 + (e2.toNat - 48)) / 10 = digitVal e1 from by
              unfold digitVal; omega]
          exact digitChar_digitVal he1
        · rw [show ((e1.toNat - 48) * 10 + (e2.toNat - 48)) % 10 = digitVal e2 from by
              unfold digitVal; omega]
          exact digitChar_digitVal he2

/-! ## Helper lemmas: the standard normal distribution -/

theorem normPdf_pos (x : ℝ) : 0 < normPdf x := by
  unfold normPdf
  exact div_pos (Real.exp_pos _) (Real.sqrt_pos.mpr (by positivity))

theorem normPdf_neg (x : ℝ) : normPdf (-x) = normPdf x := by
  unfold normPdf; rw [neg_sq]

theorem continuous_normPdf : Continuous normPdf := by
  unfold normPdf
  exact (Real.continuous_exp.comp (by continuity)).div_const _

theorem integrable_normPdf : Integrable normPdf := by
  have h := (integrable_exp_neg_mul_sq (by norm_num : (0:ℝ) < 1/2)).div_const
    (Real.sqrt (2 * Real.pi))
  refine h.congr (Filter.Eventually.of_forall fun x => ?_)
  unfold normPdf
  ring_nf

theorem integral_normPdf : ∫ x, normPdf x = 1 := by
  unfold normPdf
  rw [integral_div]
  have h := integral_gaussian (1/2)
  have hx : ∀ x : ℝ, -x ^ 2 / 2 = -(1/2) * x ^ 2 := fun x => by ring
  simp only [hx]
  rw [h]
  have h2 : Real.pi / (1/2) = 2 * Real.pi := by ring
  rw [h2, div_self (Real.sqrt_ne_zero'.mpr (by positivity))]

theorem normCdf_add_normCdf_neg (x : ℝ) : normCdf x + normCdf (-x) = 1 := by
  have h1 : normCdf (-x) = ∫ t in Set.Ioi x, normPdf t := by
    unfold normCdf
    have h2 : (∫ t in Set.Iic (-x), normPdf t) = ∫ t in Set.Iic (-x), normPdf (-t) :=
      setIntegral_congr_fun measurableSet_Iic fun t _ => (normPdf_neg t).symm
    rw [h2, integral_comp_neg_Iic, neg_neg]
  rw [h1]
  unfold normCdf
  rw [intervalIntegral.integral_Iic_add_Ioi integrable_normPdf.integrableOn
    integrable_normPdf.integrableOn]
  exact integral_normPdf

theorem normCdf_pos (x : ℝ) : 0 < normCdf x := by
  unfold normCdf
  rw [integral_pos_iff_support_of_nonneg_ae
    (Filter.Eventually.of_forall fun t => (normPdf_pos t).le) integrable_normPdf.integrableOn]
  have hs : Function.support normPdf = Set.univ :=
    Set.eq_univ_of_forall fun t => (normPdf_pos t).ne'
  rw [hs, Measure.restrict_apply_univ, Real.volume_Iic]
  exact ENNReal.zero_lt_top

theorem normCdf_lt_one (x : ℝ) : normCdf x < 1 := by
  have h := normCdf_add_normCdf_neg x
  have h2 := normCdf_pos (-x)
  linarith

theorem hasDerivAt_normCdf (x : ℝ) : HasDerivAt normCdf (normPdf x) x := by
  have hrepr : normCdf = fun u => (∫ t in (0:ℝ)..u, normPdf t) + normCdf 0 := by
    funext u
    unfold normCdf
    rw [← intervalIntegral.integral_Iic_sub_Iic integrable_normPdf.integrableOn
      integrable_normPdf.integrableOn]
    ring
  rw [hrepr]
  exact (intervalIntegral.integral_hasDerivAt_right
    integrable_normPdf.intervalIntegrable
    continuous_normPdf.aestronglyMeasurable.stronglyMeasurableAtFilter
    continuous_normPdf.continuousAt).add_const _

/-! ## Helper lemmas: the Black-Scholes closed forms -/

theorem bsCall_sub_bsPut (S K r σ T : ℝ) :
    bsCall S K r σ T - bsPut S K r σ T = S - K * Real.exp (-r * T) := by
  unfold bsCall bsPut
  have h1 := normCdf_add_normCdf_neg (bsD1 S K r σ T)
  have h2 := normCdf_add_normCdf_neg (bsD2 S K r σ T)
  have e1 : normCdf (-bsD1 S K r σ T) = 1 - normCdf (bsD1 S K r σ T) := by linarith
  have e2 : normCdf (-bsD2 S K r σ T) = 1 - normCdf (bsD2 S K r σ T) := by linarith
  rw [e1, e2]; ring

/-- The Black-Scholes delta cancellation `S · φ(d1) = K·e^(−rT) · φ(d2)`. -/
theorem bs_pdf_identity {S K σ T : ℝ} (r : ℝ) (hS : 0 < S) (hK : 0 < K) (hσ : 0 < σ)
    (hT : 0 < T) :
    S * normPdf (bsD1 S K r σ T) = K * Real.exp (-r * T) * normPdf (bsD2 S K r σ T) := by
  have ha : 0 < σ * Real.sqrt T := mul_pos hσ (Real.sqrt_pos.mpr hT)
  have haa : (σ * Real.sqrt T) ^ 2 = σ ^ 2 * T := by
    rw [mul_pow, Real.sq_sqrt hT.le]
  have hda : bsD1 S K r σ T * (σ * Real.sqrt T)
      = Real.log (S / K) + (r + 0.5 * σ ^ 2) * T := by
    unfold bsD1; exact div_mul_cancel₀ _ ha.ne'
  have hlog : Real.log (S / K) = Real.log S - Real.log K := Real.log_div hS.ne' hK.ne'
  unfold normPdf bsD2
  set d := bsD1 S K r σ T with hd
  set a := σ * Real.sqrt T with ha2
  have hexp : Real.log S + -d ^ 2 / 2
      = Real.log K + -r * T + -(d - a) ^ 2 / 2 := by
    linear_combination (-1 : ℝ) * hda - hlog + haa / 2
  have hmain : S * Real.exp (-d ^ 2 / 2)
      = K * Real.exp (-r * T) * Real.exp (-(d - a) ^ 2 / 2) := by
    rw [← Real.exp_log hS, ← Real.exp_log hK, ← Real.exp_add, ← Real.exp_add,
      ← Real.exp_add, hexp]
  rw [← mul_div_assoc, ← mul_div_assoc, hmain]

theorem hasDerivAt_bsD1 (K r σ T : ℝ) {S : ℝ} (hS : 0 < S) (hK : 0 < K) (hσ : 0 < σ)
    (hT : 0 < T) :
    HasDerivAt (fun s => bsD1 s K r σ T) ((σ * Real.sqrt T * S)⁻¹) S := by
  have hdiv : HasDerivAt (fun s : ℝ => s / K) (1 / K) S := (hasDerivAt_id S).div_const K
  have hlog : HasDerivAt (fun s : ℝ => Real.log (s / K)) ((S / K)⁻¹ * (1 / K)) S :=
    (Real.hasDerivAt_log (div_ne_zero hS.ne' hK.ne')).comp S hdiv
  have h := (hlog.add_const ((r + 0.5 * σ ^ 2) * T)).div_const (σ * Real.sqrt T)
  have heq : (S / K)⁻¹ * (1 / K) / (σ * Real.sqrt T) = (σ * Real.sqrt T * S)⁻¹ := by
    have ha : σ * Real.sqrt T ≠ 0 := (mul_pos hσ (Real.sqrt_pos.mpr hT)).ne'
    field_simp
    ring
  rw [heq] at h
  exact h

/-- The call branch has derivative `Φ(d1)` in the share price (the delta). -/
theorem hasDerivAt_bsCall (K r σ T : ℝ) {S : ℝ} (hS : 0 < S) (hK : 0 < K) (hσ : 0 < σ)
    (hT : 0 < T) :
    HasDerivAt (fun s => bsCall s K r σ T) (normCdf (bsD1 S K r σ T)) S := by
  have hd1 := hasDerivAt_bsD1 K r σ T hS hK hσ hT
  have hd2 : HasDerivAt (fun s => bsD2 s K r σ T) ((σ * Real.sqrt T * S)⁻¹) S := by
    unfold bsD2; exact hd1.sub_const _
  have hn1 : HasDerivAt (fun s => normCdf (bsD1 s K r σ T))
      (normPdf (bsD1 S K r σ T) * (σ * Real.sqrt T * S)⁻¹) S :=
    (hasDerivAt_normCdf (bsD1 S K r σ T)).comp S hd1
  have hn2 : HasDerivAt (fun s => normCdf (bsD2 s K r σ T))
      (normPdf (bsD2 S K r σ T) * (σ * Real.sqrt T * S)⁻¹) S :=
    (hasDerivAt_normCdf (bsD2 S K r σ T)).comp S hd2
  have hterm1 : HasDerivAt (fun s => s * normCdf (bsD1 s K r σ T))
      (1 * normCdf (bsD1 S K r σ T)
        + S * (normPdf (bsD1 S K r σ T) * (σ * Real.sqrt T * S)⁻¹)) S :=
    (hasDerivAt_id S).mul hn1
  have hterm2 : HasDerivAt (fun s => K * Real.exp (-r * T) * normCdf (bsD2 s K r σ T))
      (K * Real.exp (-r * T) * (normPdf (bsD2 S K r σ T) * (σ * Real.sqrt T * S)⁻¹)) S :=
    hn2.const_mul _
  have h := hterm1.sub hterm2
  have hkey := bs_pdf_identity r hS hK hσ hT
  have hval : 1 * normCdf (bsD1 S K r σ T)
        + S * (normPdf (bsD1 S K r σ T) * (σ * Real.sqrt T * S)⁻¹)
        - K * Real.exp (-r * T) * (normPdf (bsD2 S K r σ T) * (σ * Real.sqrt T * S)⁻¹)
      = normCdf (bsD1 S K r σ T) := by
    linear_combination (σ * Real.sqrt T * S)⁻¹ * hkey
  rw [hval] at h
  exact h

/-- The put branch has derivative `Φ(d1) − 1` in the share price. -/
theorem hasDerivAt_bsPut (K r σ T : ℝ) {S : ℝ} (hS : 0 < S) (hK : 0 < K) (hσ : 0 < σ)
    (hT : 0 < T) :
    HasDerivAt (fun s => bsPut s K r σ T) (normCdf (bsD1 S K r σ T) - 1) S := by
  have hrepr : (fun s => bsPut s K r σ T)
      = fun s => bsCall s K r σ T - s + K * Real.exp (-r * T) := by
    funext s
    have h := bsCall_sub_bsPut s K r σ T
    linarith
  rw [hrepr]
  exact ((hasDerivAt_bsCall K r σ T hS hK hσ hT).sub (hasDerivAt_id S)).add_const _

theorem bsCall_strictMonoOn (K r σ T : ℝ) (hK : 0 < K) (hσ : 0 < σ) (hT : 0 < T) :
    StrictMonoOn (fun s => bsCall s K r σ T) (Set.Ioi 0) := by
  apply strictMonoOn_of_deriv_pos (convex_Ioi 0)
  · intro x hx
    exact (hasDerivAt_bsCall K r σ T hx hK hσ hT).continuousAt.continuousWithinAt
  · intro x hx
    rw [interior_Ioi] at hx
    rw [(hasDerivAt_bsCall K r σ T hx hK hσ hT).deriv]
    exact normCdf_pos _

theorem bsPut_strictAntiOn (K r σ T : ℝ) (hK : 0 < K) (hσ : 0 < σ) (hT : 0 < T) :
    StrictAntiOn (fun s => bsPut s K r σ T) (Set.Ioi 0) := by
  apply strictAntiOn_of_deriv_neg (convex_Ioi 0)
  · intro x hx
    exact (hasDerivAt_bsPut K r σ T hx hK hσ hT).continuousAt.continuousWithinAt
  · intro x hx
    rw [interior_Ioi] at hx
    rw [(hasDerivAt_bsPut K r σ T hx hK hσ hT).deriv]
    have h := normCdf_lt_one (bsD1 x K r σ T)
    linarith

/-! ## Bridge lemmas: `calculate_option_value` and the closed forms -/

theorem calculate_option_value_call (o : ShareOption) (days : ℤ) (K : ℝ) :
    o.calculate_option_value days K "call"
      = Except.ok (bsCall o.share_price K o.calculate_risk_free_rate o.volatility
          ((days : ℝ) / 365)) := rfl

theorem calculate_option_value_put (o : ShareOption) (days : ℤ) (K : ℝ) :
    o.calculate_option_value days K "put"
      = Except.ok (bsPut o.share_price K o.calculate_risk_free_rate o.volatility
          ((days : ℝ) / 365)) := rfl

/-! ## The claims -/

/-- C1: for every option with S > 0, σ > 0, T > 0 (T = days/365 for the
integer day count to expiry) and K > 0, `calculate_option_value` computes
`d1 = [ln(S/K) + (r + 0.5σ²)T] / (σ√T)` and `d2 = d1 − σ√T` with
`r = calculate_risk_free_rate() = 0.03`, and returns
`S·Φ(d1) − K·e^(−rT)·Φ(d2)` for "call" and
`K·e^(−rT)·Φ(−d2) − S·Φ(−d1)` for "put". -/
theorem C1_black_scholes_formula (o : ShareOption) (days : ℤ) (K : ℝ)
    (hS : 0 < o.share_price) (hσ : 0 < o.volatility)
    (hT : 0 < (days : ℝ) / 365) (hK : 0 < K) :
    o.calculate_option_value days K "call"
      = Except.ok (o.share_price * normCdf
            ((Real.log (o.share_price / K)
                + (o.calculate_risk_free_rate + 0.5 * o.volatility ^ 2) * ((days : ℝ) / 365))
              / (o.volatility * Real.sqrt ((days : ℝ) / 365)))
          - K * Real.exp (-o.calculate_risk_free_rate * ((days : ℝ) / 365))
            * normCdf ((Real.log (o.share_price / K)
                  + (o.calculate_risk_free_rate + 0.5 * o.volatility ^ 2) * ((days : ℝ) / 365))
                / (o.volatility * Real.sqrt ((days : ℝ) / 365))
              - o.volatility * Real.sqrt ((days : ℝ) / 365))) ∧
    o.calculate_option_value days K "put"
      = Except.ok (K * Real.exp (-o.calculate_risk_free_rate * ((days : ℝ) / 365))
            * normCdf (-((Real.log (o.share_price / K)
                  + (o.calculate_risk_free_rate + 0.5 * o.volatility ^ 2) * ((days : ℝ) / 365))
                / (o.volatility * Real.sqrt ((days : ℝ) / 365))
              - o.volatility * Real.sqrt ((days : ℝ) / 365)))
          - o.share_price * normCdf
              (-((Real.log (o.share_price / K)
                  + (o.calculate_risk_free_rate + 0.5 * o.volatility ^ 2) * ((days : ℝ) / 365))
                / (o.volatility * Real.sqrt ((days : ℝ) / 365)))))
      ∧ o.calculate_risk_free_rate = 0.03 :=
  ⟨rfl, rfl, rfl⟩

theorem C1_black_scholes_formula_witness :
    (0 : ℝ) < sampleOption.share_price ∧
    sampleOption.calculate_option_value 182 155 "call"
      = Except.ok (sampleOption.share_price * normCdf
            ((Real.log (sampleOption.share_price / 155)
                + (sampleOption.calculate_risk_free_rate
                    + 0.5 * sampleOption.volatility ^ 2) * (((182 : ℤ) : ℝ) / 365))
              / (sampleOption.volatility * Real.sqrt (((182 : ℤ) : ℝ) / 365)))
          - 155 * Real.exp (-sampleOption.calculate_risk_free_rate * (((182 : ℤ) : ℝ) / 365))
            * normCdf ((Real.log (sampleOption.share_price / 155)
                  + (sampleOption.calculate_risk_free_rate
                      + 0.5 * sampleOption.volatility ^ 2) * (((182 : ℤ) : ℝ) / 365))
                / (sampleOption.volatility * Real.sqrt (((182 : ℤ) : ℝ) / 365))
              - sampleOption.volatility * Real.sqrt (((182 : ℤ) : ℝ) / 365))) :=
  ⟨by norm_num [sampleOption],
    (C1_black_scholes_formula sampleOption 182 155 (by norm_num [sampleOption])
      (by norm_num [sampleOption]) (by norm_num) (by norm_num)).1⟩

/-- C2: put-call parity — for the same option, evaluation day count, strike
and rate, with S > 0, K > 0, T > 0, σ > 0, the "call" value minus the "put"
value returned by `calculate_option_value` equals `S − K·e^(−rT)` (exactly,
in the real-number model). -/
theorem C2_put_call_parity (o : ShareOption) (days : ℤ) (K c p : ℝ)
    (hS : 0 < o.share_price) (hK : 0 < K) (hT : 0 < (days : ℝ) / 365)
    (hσ : 0 < o.volatility)
    (hc : o.calculate_option_value days K "call" = Except.ok c)
    (hp : o.calculate_option_value days K "put" = Except.ok p) :
    c - p = o.share_price
      - K * Real.exp (-o.calculate_risk_free_rate * ((days : ℝ) / 365)) := by
  have hc2 : c = bsCall o.share_price K o.calculate_risk_free_rate o.volatility
      ((days : ℝ) / 365) :=
    (Except.ok.inj ((calculate_option_value_call o days K).symm.trans hc)).symm
  have hp2 : p = bsPut o.share_price K o.calculate_risk_free_rate o.volatility
      ((days : ℝ) / 365) :=
    (Except.ok.inj ((calculate_option_value_put o days K).symm.trans hp)).symm
  rw [hc2, hp2]
  exact bsCall_sub_bsPut _ _ _ _ _

theorem C2_put_call_parity_witness :
    bsCall 150 155 0.03 0.25 (((182 : ℤ) : ℝ) / 365)
        - bsPut 150 155 0.03 0.25 (((182 : ℤ) : ℝ) / 365)
      = 150 - 155 * Real.exp (-0.03 * (((182 : ℤ) : ℝ) / 365)) :=
  C2_put_call_parity sampleOption 182 155 _ _ (by norm_num [sampleOption]) (by norm_num)
    (by norm_num) (by norm_num [sampleOption]) rfl rfl

/-- C3: for valid inputs (S > 0, K > 0) with T > 0 and σ > 0, the valuation
is well defined: the divisor `σ·√T` is strictly positive (no division by
zero), the logarithm argument `S/K` is strictly positive, and
`calculate_option_value` returns a value (a finite real, since the model is
over `ℝ`) for both "call" and "put". -/
theorem C3_valid_inputs_return_value (o : ShareOption) (days : ℤ) (K : ℝ)
    (hS : 0 < o.share_price) (hK : 0 < K) (hT : 0 < (days : ℝ) / 365)
    (hσ : 0 < o.volatility) :
    0 < o.volatility * Real.sqrt ((days : ℝ) / 365) ∧
    0 < o.share_price / K ∧
    (∃ c : ℝ, o.calculate_option_value days K "call" = Except.ok c) ∧
    (∃ p : ℝ, o.calculate_option_value days K "put" = Except.ok p) :=
  ⟨mul_pos hσ (Real.sqrt_pos.mpr hT), div_pos hS hK, ⟨_, rfl⟩, ⟨_, rfl⟩⟩

theorem C3_valid_inputs_return_value_witness :
    0 < sampleOption.volatility * Real.sqrt (((182 : ℤ) : ℝ) / 365) ∧
    0 < sampleOption.share_price / 155 ∧
    (∃ c : ℝ, sampleOption.calculate_option_value 182 155 "call" = Except.ok c) ∧
    (∃ p : ℝ, sampleOption.calculate_option_value 182 155 "put" = Except.ok p) :=
  C3_valid_inputs_return_value sampleOption 182 155 (by norm_num [sampleOption])
    (by norm_num) (by norm_num) (by norm_num [sampleOption])

/-- C4: monotonicity in the spot price — with T > 0, σ > 0, K > 0 and all
other attributes held fixed, the "call" value returned by
`calculate_option_value` is strictly increasing in the share price and the
"put" value is strictly decreasing. -/
theorem C4_monotone_in_spot (o : ShareOption) (S2 : ℝ) (days : ℤ) (K : ℝ)
    (hS1 : 0 < o.share_price) (hS12 : o.share_price < S2) (hσ : 0 < o.volatility)
    (hT : 0 < (days : ℝ) / 365) (hK : 0 < K) :
    ∃ c1 c2 p1 p2 : ℝ,
      o.calculate_option_value days K "call" = Except.ok c1 ∧
      (ShareOption.mk (Share.mk o.ticker S2 o.volatility o.market_cap o.dividend_yield
        o.sector) o.expiry_date).calculate_option_value days K "call" = Except.ok c2 ∧
      o.calculate_option_value days K "put" = Except.ok p1 ∧
      (ShareOption.mk (Share.mk o.ticker S2 o.volatility o.market_cap o.dividend_yield
        o.sector) o.expiry_date).calculate_option_value days K "put" = Except.ok p2 ∧
      c1 < c2 ∧ p2 < p1 := by
  refine ⟨bsCall o.share_price K 0.03 o.volatility ((days : ℝ) / 365),
    bsCall S2 K 0.03 o.volatility ((days : ℝ) / 365),
    bsPut o.share_price K 0.03 o.volatility ((days : ℝ) / 365),
    bsPut S2 K 0.03 o.volatility ((days : ℝ) / 365),
    rfl, rfl, rfl, rfl, ?_, ?_⟩
  · exact bsCall_strictMonoOn K 0.03 o.volatility ((days : ℝ) / 365) hK hσ hT
      (Set.mem_Ioi.mpr hS1) (Set.mem_Ioi.mpr (hS1.trans hS12)) hS12
  · exact bsPut_strictAntiOn K 0.03 o.volatility ((days : ℝ) / 365) hK hσ hT
      (Set.mem_Ioi.mpr hS1) (Set.mem_Ioi.mpr (hS1.trans hS12)) hS12

theorem C4_monotone_in_spot_witness :
    ∃ c1 c2 p1 p2 : ℝ,
      sampleOption.calculate_option_value 182 155 "call" = Except.ok c1 ∧
      (ShareOption.mk (Share.mk sampleOption.ticker 160 sampleOption.volatility
        sampleOption.market_cap sampleOption.dividend_yield
        sampleOption.sector) sampleOption.expiry_date).calculate_option_value 182 155 "call"
        = Except.ok c2 ∧
      sampleOption.calculate_option_value 182 155 "put" = Except.ok p1 ∧
      (ShareOption.mk (Share.mk sampleOption.ticker 160 sampleOption.volatility
        sampleOption.market_cap sampleOption.dividend_yield
        sampleOption.sector) sampleOption.expiry_date).calculate_option_value 182 155 "put"
        = Except.ok p2 ∧
      c1 < c2 ∧ p2 < p1 :=
  C4_monotone_in_spot sampleOption 160 182 155 (by norm_num [sampleOption])
    (by norm_num [sampleOption]) (by norm_num [sampleOption]) (by norm_num) (by norm_num)

/-- C5: for every option, day count and strike, `calculate_option_value`
fails with the invalid-option-kind error whenever the option type is
neither "call" nor "put" (for example "swap"), and no value is returned. -/
theorem C5_invalid_option_kind (o : ShareOption) (days : ℤ) (K : ℝ) (t : String)
    (h1 : t ≠ "call") (h2 : t ≠ "put") :
    o.calculate_option_value days K t = Except.error ValueError.invalidOptionType := by
  unfold ShareOption.calculate_option_value
  rw [if_neg h1, if_neg h2]

theorem C5_invalid_option_kind_witness :
    "swap" ≠ "call" ∧ "swap" ≠ "put" ∧
    sampleOption.calculate_option_value 182 100 "swap"
      = Except.error ValueError.invalidOptionType :=
  ⟨by decide, by decide,
    C5_invalid_option_kind sampleOption 182 100 "swap" (by decide) (by decide)⟩

/-- C6: constructing a `ShareOption` fails with `DateParseError` exactly when
the expiry string does not parse as a valid `YYYY-MM-DD` calendar date — in
particular "2025-13-01" (invalid month) is rejected — and succeeds, storing
the parsed date, on every string that does parse. -/
theorem C6_constructor_date_validation (t : String) (sp vol mc dy : ℝ) (sec s : String) :
    (parseExpiryDate s = none →
      mkShareOption t sp vol mc dy sec s = Except.error DateParseError.invalidDate) ∧
    (∀ dt : Date, parseExpiryDate s = some dt →
      mkShareOption t sp vol mc dy sec s
        = Except.ok (ShareOption.mk (Share.mk t sp vol mc dy sec) dt)) ∧
    parseExpiryDate "2025-13-01" = none := by
  refine ⟨fun h => ?_, fun dt h => ?_, by decide⟩
  · unfold mkShareOption
    rw [h]
  · unfold mkShareOption
    rw [h]

theorem C6_constructor_date_validation_witness :
    parseExpiryDate "2025-06-30" = some (Date.mk 2025 6 30) ∧
    mkShareOption "ACME" 150 0.25 1000000 0.01 "Tech" "2025-06-30"
      = Except.ok (ShareOption.mk (Share.mk "ACME" 150 0.25 1000000 0.01 "Tech")
          (Date.mk 2025 6 30)) ∧
    parseExpiryDate "2025-13-01" = none :=
  ⟨by decide,
    (C6_constructor_date_validation "ACME" 150 0.25 1000000 0.01 "Tech" "2025-06-30").2.1
      (Date.mk 2025 6 30) (by decide),
    (C6_constructor_date_validation "ACME" 150 0.25 1000000 0.01 "Tech" "2025-06-30").2.2⟩

/-- C7: `calculate_annualized_volatility` returns exactly
`volatility * sqrt(trading_days)` (the source computes
`volatility * trading_days ** 0.5`), depends only on the stored volatility
and that one parameter, and on volatility 0.02 with 252 trading days yields
`0.02·√252 ≈ 0.3175` (within 1e-3). -/
theorem C7_annualized_volatility (s s2 : Share) (trading_days : ℕ)
    (hvol : s2.volatility = s.volatility) :
    s.calculate_annualized_volatility trading_days
        = s.volatility * Real.sqrt trading_days ∧
    s2.calculate_annualized_volatility trading_days
        = s.calculate_annualized_volatility trading_days ∧
    |Share.calculate_annualized_volatility (Share.mk "X" 100 0.02 0 0 "Tech") 252
        - 0.3175| < 0.001 := by
  have hpow : ∀ u : Share, ∀ td : ℕ, u.calculate_annualized_volatility td
      = u.volatility * Real.sqrt td := by
    intro u td
    unfold Share.calculate_annualized_volatility
    rw [show (0.5 : ℝ) = 1 / 2 by norm_num, ← Real.sqrt_eq_rpow]
  refine ⟨hpow s trading_days, ?_, ?_⟩
  · rw [hpow s trading_days, hpow s2 trading_days, hvol]
  · rw [hpow (Share.mk "X" 100 0.02 0 0 "Tech") 252]
    have hc : ((252 : ℕ) : ℝ) = 252 := by norm_num
    rw [hc]
    have hs := Real.sq_sqrt (show (0 : ℝ) ≤ 252 by norm_num)
    have hnn := Real.sqrt_nonneg (252 : ℝ)
    have hlb : (15.83 : ℝ) < Real.sqrt 252 := by nlinarith
    have hub : Real.sqrt 252 < 15.875 := by nlinarith
    rw [abs_lt]
    constructor <;> nlinarith

theorem C7_annualized_volatility_witness :
    (Share.mk "Y" 50 0.3 0 0 "Energy").volatility
        = (Share.mk "Z" 80 0.3 0 0 "Mining").volatility ∧
    (Share.mk "Z" 80 0.3 0 0 "Mining").calculate_annualized_volatility 252
        = (Share.mk "Z" 80 0.3 0 0 "Mining").volatility * Real.sqrt (252 : ℕ) :=
  ⟨rfl, (C7_annualized_volatility (Share.mk "Z" 80 0.3 0 0 "Mining")
    (Share.mk "Y" 50 0.3 0 0 "Energy") 252 rfl).1⟩

/-- C8: `calculate_risk_free_rate` takes no inputs beyond the instance,
never fails, and returns the same fixed placeholder rate 0.03 on every call,
for every option instance. -/
theorem C8_risk_free_rate_constant (o o2 : ShareOption) :
    o.calculate_risk_free_rate = 0.03 ∧
    o.calculate_risk_free_rate = o2.calculate_risk_free_rate :=
  ⟨rfl, rfl⟩

/-- C9 (implicit): the option-type check is case-sensitive — a value is
returned exactly for the two lowercase strings "call" and "put"; any other
string, including "Call" and "PUT", yields the invalid-option-kind error. -/
theorem C9_option_kind_case_sensitive (o : ShareOption) (days : ℤ) (K : ℝ) (t : String) :
    ((∃ v : ℝ, o.calculate_option_value days K t = Except.ok v)
      ↔ t = "call" ∨ t = "put") ∧
    o.calculate_option_value days K "Call" = Except.error ValueError.invalidOptionType ∧
    o.calculate_option_value days K "PUT" = Except.error ValueError.invalidOptionType := by
  refine ⟨⟨fun hv => ?_, fun ht => ?_⟩, rfl, rfl⟩
  · by_contra hneg
    push_neg at hneg
    obtain ⟨v, hv⟩ := hv
    rw [C5_invalid_option_kind o days K t hneg.1 hneg.2] at hv
    exact absurd hv (by simp)
  · rcases ht with rfl | rfl
    · exact ⟨_, rfl⟩
    · exact ⟨_, rfl⟩

/-- C10 (implicit): for every zero-padded `YYYY-MM-DD` string that parses as
a valid calendar date, constructing the option and rendering the expiry
fragment of its textual representation reproduces exactly the same expiry
string. -/
theorem C10_repr_roundtrips_expiry (t : String) (sp vol mc dy : ℝ) (sec s : String)
    (o : ShareOption) (h : mkShareOption t sp vol mc dy sec s = Except.ok o) :
    o.repr_expiry = ", expiry_date=" ++ s := by
  unfold mkShareOption at h
  cases hp : parseExpiryDate s with
  | none =>
    rw [hp] at h
    exact absurd h (by simp)
  | some dt =>
    rw [hp] at h
    injection h with h
    subst h
    unfold ShareOption.repr_expiry
    rw [formatDate_parseExpiryDate s dt hp]

theorem C10_repr_roundtrips_expiry_witness :
    (mkShareOption "ACME" 150 0.25 1000000 0.01 "Tech" "2025-06-30"
        = Except.ok (ShareOption.mk (Share.mk "ACME" 150 0.25 1000000 0.01 "Tech")
            (Date.mk 2025 6 30))) ∧
    (ShareOption.mk (Share.mk "ACME" 150 0.25 1000000 0.01 "Tech")
        (Date.mk 2025 6 30)).repr_expiry = ", expiry_date=" ++ "2025-06-30" :=
  ⟨rfl, C10_repr_roundtrips_expiry "ACME" 150 0.25 1000000 0.01 "Tech" "2025-06-30"
    (ShareOption.mk (Share.mk "ACME" 150 0.25 1000000 0.01 "Tech") (Date.mk 2025 6 30)) rfl⟩
